import Mathlib

/-!
Endpoint operations of the coinbase client (`methods.go`).

A shallow embedding of the sixteen endpoint operations of `methods.go`, together with
the pieces of the Go standard library they call (`url.Values.Set`, `strconv.Itoa`,
`fmt.Sprintf("%.8f", _)` on a `float32`, `encoding/json` decoding into a struct).

Conventions.
* A Go `string` and a Go `[]byte` are both sequences of bytes.  Both are modelled by
  `String`, so that the conversion `string(body)` is the identity.
* A Go `error` is `Option GoError`; `none` is the `nil` error.
* Go `int` arguments are modelled by `Int`.
* The transport collaborator (`Client.Get`, `Client.PostForm`, `Client.PostJSON`) lives
  outside `methods.go`; it is a parameter, acting on an arbitrary state of the remote side.
* Every call of the transport and of `json.Unmarshal` is recorded, with what it returned,
  in a trace carried by the world.
-/

namespace Coinbase

/-! ## Strings, errors, `url.Values` -/

/-- A byte slice, as returned by the transport. -/
abbrev Bytes := String

/-- A non-nil Go error value. -/
structure GoError where
  msg : String
deriving DecidableEq, Repr

/-- Go `url.Values`, a `map[string][]string`, as an association list without repeated keys. -/
abbrev Values := List (String × List String)

namespace Values

/-- Go `Values.Set(key, value)`: the entry of `key` becomes the one-element slice `[value]`. -/
def Set (v : Values) (key value : String) : Values :=
  match v with
  | [] => [(key, [value])]
  | (k, vs) :: rest => if k = key then (key, [value]) :: rest else (k, vs) :: Set rest key value

/-- The slice stored under `key`, if the key is present (`vs, ok := v[key]`). -/
def lookup (v : Values) (key : String) : Option (List String) :=
  match v with
  | [] => none
  | (k, vs) :: rest => if k = key then some vs else lookup rest key

/-- Go `Values.Has(key)`. -/
def Has (v : Values) (key : String) : Bool := (lookup v key).isSome

/-- Go `Values.Get(key)`: the first value stored under `key`, or the empty string. -/
def Get (v : Values) (key : String) : String :=
  match lookup v key with
  | some (x :: _) => x
  | _ => ""

end Values

/-! ## `strconv.Itoa` -/

/-- Go `strconv.Itoa`: the base-10 rendering of an integer, with a leading `-` when negative. -/
def Itoa (i : Int) : String :=
  match i with
  | Int.ofNat n => Nat.repr n
  | Int.negSucc n => "-" ++ Nat.repr (n + 1)

/-! ## `float32` and `fmt.Sprintf("%.8f", _)` -/

/-- An IEEE-754 binary32 value by its three bit fields. -/
structure Float32 where
  /-- the sign bit -/
  neg : Bool
  /-- the biased exponent, 8 bits -/
  exp : Fin 256
  /-- the fraction field, 23 bits -/
  mant : Fin 8388608
deriving DecidableEq, Repr

namespace Float32

/-- Neither an infinity nor a NaN. -/
def isFinite (q : Float32) : Bool := q.exp.val != 255

/-- The integer significand: the implicit top bit is added for normal numbers. -/
def significand (q : Float32) : Nat :=
  if q.exp.val = 0 then q.mant.val else q.mant.val + 8388608

/-- The exponent field with subnormals moved to exponent 1; the value of a finite `q` is
`significand q * 2 ^ (expField q) / 2 ^ 150`. -/
def expField (q : Float32) : Nat :=
  if q.exp.val = 0 then 1 else q.exp.val

/-- The magnitude of a finite `q` times `10 ^ prec`, rounded to the nearest integer, a tie
going to the even neighbour (`decimal.Round` on the exact decimal expansion). -/
def scaledRound (q : Float32) (prec : Nat) : Nat :=
  let num := q.significand * 2 ^ q.expField * 10 ^ prec
  let den := 2 ^ 150
  let n := num / den
  let r := num % den
  if 2 * r > den ∨ (2 * r = den ∧ n % 2 = 1) then n + 1 else n

end Float32

/-- The `prec` digits after the decimal point of `n / 10 ^ prec`. -/
def fracDigits (n prec : Nat) : List Char :=
  (List.range prec).map (fun i => Nat.digitChar (n / 10 ^ (prec - 1 - i) % 10))

/-- Go `strconv.FormatFloat(q, 'f', prec, 32)`. -/
def FormatFloat (q : Float32) (prec : Nat) : String :=
  if q.exp.val = 255 then
    if q.mant.val ≠ 0 then "NaN" else if q.neg then "-Inf" else "+Inf"
  else
    let n := q.scaledRound prec
    let sign := if q.neg then "-" else ""
    let frac := if prec > 0 then "." ++ String.mk (fracDigits n prec) else ""
    sign ++ Nat.repr (n / 10 ^ prec) ++ frac

/-- Go `fmt.Sprintf("%.8f", q)` for a `float32` argument: `FormatFloat` with precision 8;
no flag is set, so a finite value carries no `+` and the infinities and NaN are printed as
`FormatFloat` names them. -/
def Sprintf_8f (q : Float32) : String := FormatFloat q 8

/-- A fixed-point decimal string with exactly 8 digits after the decimal point: an optional
`-`, one or more digits, a `.`, and exactly eight digits. -/
def isFixed8 (s : String) : Bool :=
  let cs := match s.data with
    | '-' :: r => r
    | r => r
  match cs.dropWhile Char.isDigit with
  | '.' :: fr => !(cs.takeWhile Char.isDigit).isEmpty && fr.length == 8 && fr.all Char.isDigit
  | _ => false

/-- The `float32` value 1.5. -/
def f32_1_5 : Float32 := ⟨false, 127, 4194304⟩

/-- A `float32` NaN. -/
def f32_NaN : Float32 := ⟨false, 255, 4194304⟩

/-- The `float32` positive infinity. -/
def f32_Inf : Float32 := ⟨false, 255, 0⟩

/-! ## Go values and types -/

/-- The Go values the operations handle. -/
inductive GoValue where
  /-- the nil interface value -/
  | nil
  | bool (b : Bool)
  | int (n : Int)
  | str (s : String)
  /-- a nil slice -/
  | nilSlice
  | slice (elems : List GoValue)
  /-- a nil map -/
  | nilMap
  /-- a map with string keys, by its entries (no key twice) -/
  | map (entries : List (String × GoValue))
  /-- a struct value, by its fields in declaration order -/
  | struct (fields : List (String × GoValue))

/-- The Go types of the response declarations.  A struct field is its Go name, its `json`
tag (if it has one) and its type. -/
inductive GoType where
  | bool
  | int
  | string
  | slice (elem : GoType)
  /-- `map[string]elem` -/
  | map (elem : GoType)
  | struct (fields : List (String × Option String × GoType))

/-- A struct field declaration. -/
abbrev FieldDecl := String × Option String × GoType

mutual
/-- The zero value of a type (`var response T`). -/
def GoType.zero : GoType → GoValue
  | .bool => .bool false
  | .int => .int 0
  | .string => .str ""
  | .slice _ => .nilSlice
  | .map _ => .nilMap
  | .struct fields => .struct (GoType.zeroFields fields)
/-- The zero values of the fields of a struct. -/
def GoType.zeroFields : List (String × Option String × GoType) → List (String × GoValue)
  | [] => []
  | (name, _, t) :: rest => (name, GoType.zero t) :: GoType.zeroFields rest
end

/-- The field `name` of a struct value. -/
def GoValue.field (v : GoValue) (name : String) : Option GoValue :=
  match v with
  | .struct fields => (fields.find? (fun f => f.1 == name)).map Prod.snd
  | _ => none

/-- The integer held by an `int` value. -/
def GoValue.toInt (v : GoValue) : Option Int :=
  match v with
  | .int n => some n
  | _ => none

/-- The integer in the field `name` of a struct value. -/
def GoValue.intField (v : GoValue) (name : String) : Option Int :=
  (v.field name).bind GoValue.toInt

/-- Assignment `m[key] = x` on a map value. -/
def GoValue.mapSet (m : GoValue) (key : String) (x : GoValue) : GoValue :=
  match m with
  | .map entries => .map (entries.filter (fun e => e.1 != key) ++ [(key, x)])
  | v => v


/-! ## `encoding/json` decoding into Go values -/

/-- A parsed JSON document.  A number literal of integer syntax is `int`; any other number
literal (with a fraction or an exponent) is `float` and keeps its text. -/
inductive JValue where
  | null
  | bool (b : Bool)
  | int (n : Int)
  | float (lit : String)
  | str (s : String)
  | arr (elems : List JValue)
  | obj (members : List (String × JValue))

/-- The error `json.UnmarshalTypeError` for a JSON value of kind `what`. -/
def typeError (what : String) : GoError :=
  ⟨"json: cannot unmarshal " ++ what ++ " into Go value"⟩

/-- The JSON key of a struct field: its `json` tag if it has one, otherwise its Go name. -/
def fieldKey (f : FieldDecl) : String :=
  match f.2.1 with
  | some tag => tag
  | none => f.1

/-- A name with its letters in lower case, for comparison ignoring case. -/
def foldName (s : String) : String := String.mk (s.data.map Char.toLower)

/-- The struct field a JSON key is stored in: the field whose key equals it, otherwise the
first field whose key equals it when letter case is ignored. -/
def findField (fields : List FieldDecl) (key : String) : Option FieldDecl :=
  match fields.find? (fun f => fieldKey f == key) with
  | some f => some f
  | none => fields.find? (fun f => foldName (fieldKey f) == foldName key)

/-- The value stored under `name` in a list of named values. -/
def getNamed (fs : List (String × GoValue)) (name : String) : Option GoValue :=
  (fs.find? (fun f => f.1 == name)).map Prod.snd

/-- Store `x` under `name` in a list of named values, in place when the name is present. -/
def setNamed (fs : List (String × GoValue)) (name : String) (x : GoValue) :
    List (String × GoValue) :=
  match fs with
  | [] => [(name, x)]
  | (n, y) :: rest => if n = name then (name, x) :: rest else (n, y) :: setNamed rest name x

/-- The first of two errors, in document order (`d.saveError`). -/
def firstError (a b : Option GoError) : Option GoError :=
  match a with
  | some e => some e
  | none => b

mutual
/-- Decode the JSON value `j` into the Go value `v` of type `T`: the value left in the
target and the first type error met.  A value of the wrong kind leaves its target as it was
and decoding goes on. -/
def decodeValue (T : GoType) (j : JValue) (v : GoValue) : GoValue × Option GoError :=
  match j, T with
  | .null, .slice _ => (.nilSlice, none)
  | .null, .map _ => (.nilMap, none)
  | .null, _ => (v, none)
  | .bool b, .bool => (.bool b, none)
  | .bool _, _ => (v, some (typeError "bool"))
  | .str s, .string => (.str s, none)
  | .str _, _ => (v, some (typeError "string"))
  | .int n, .int =>
    if -9223372036854775808 ≤ n ∧ n ≤ 9223372036854775807 then (.int n, none)
    else (v, some (typeError "number"))
  | .int _, _ => (v, some (typeError "number"))
  | .float _, _ => (v, some (typeError "number"))
  | .arr elems, .slice E =>
    let old := match v with
      | .slice xs => xs
      | _ => []
    let r := decodeElems E elems old
    (.slice r.1, r.2)
  | .arr _, _ => (v, some (typeError "array"))
  | .obj members, .map E =>
    let old := match v with
      | .map entries => entries
      | _ => []
    let r := decodeEntries E members old
    (.map r.1, r.2)
  | .obj members, .struct fields =>
    let old := match v with
      | .struct fs => fs
      | _ => GoType.zeroFields fields
    let r := decodeMembers fields members old
    (.struct r.1, r.2)
  | .obj _, _ => (v, some (typeError "object"))
termination_by structural j
/-- Decode the elements of a JSON array into a slice of element type `E`; the element at
an index the slice already has is decoded into that element. -/
def decodeElems (E : GoType) (elems : List JValue) (old : List GoValue) :
    List GoValue × Option GoError :=
  match elems with
  | [] => ([], none)
  | j :: js =>
    let r := decodeValue E j (old.head?.getD E.zero)
    let rs := decodeElems E js old.tail
    (r.1 :: rs.1, firstError r.2 rs.2)
termination_by structural elems
/-- Decode the members of a JSON object into a map of element type `E`; each member is
decoded into a fresh element, which is then stored under its key. -/
def decodeEntries (E : GoType) (members : List (String × JValue))
    (m : List (String × GoValue)) : List (String × GoValue) × Option GoError :=
  match members with
  | [] => (m, none)
  | (k, j) :: rest =>
    let r := decodeValue E j E.zero
    let rs := decodeEntries E rest (setNamed m k r.1)
    (rs.1, firstError r.2 rs.2)
termination_by structural members
/-- Decode the members of a JSON object into the fields of a struct; a key no field answers
to is skipped. -/
def decodeMembers (fields : List FieldDecl) (members : List (String × JValue))
    (fs : List (String × GoValue)) : List (String × GoValue) × Option GoError :=
  match members with
  | [] => (fs, none)
  | (k, j) :: rest =>
    match findField fields k with
    | none => decodeMembers fields rest fs
    | some f =>
      let r := decodeValue f.2.2 j ((getNamed fs f.1).getD f.2.2.zero)
      let rs := decodeMembers fields rest (setNamed fs f.1 r.1)
      (rs.1, firstError r.2 rs.2)
termination_by structural members
end

/-- Go `json.Unmarshal(body, &v)` with `v` of type `T`, over a parser of JSON text: invalid
text is refused before the target is touched. -/
def jsonUnmarshal (parse : Bytes → Except GoError JValue) (T : GoType) (body : Bytes)
    (v : GoValue) : GoValue × Option GoError :=
  match parse body with
  | .error e => (v, some e)
  | .ok j => decodeValue T j v

/-! ## The transport collaborator, the decoder and the recorded trace -/

/-- A call of the transport collaborator. -/
inductive Call where
  | Get (path : String) (params : Option Values)
  | PostForm (path : String) (params : Values)
  | PostJSON (path : String) (params : GoValue)

/-- One recorded step: a transport call with the body and error it returned, or a call of
`json.Unmarshal` with its target type, its input, and the target value and error it left. -/
inductive Event where
  | transport (call : Call) (body : Bytes) (err : Option GoError)
  | unmarshal (target : GoType) (body : Bytes) (value : GoValue) (err : Option GoError)

/-- Whether a recorded step is a transport call. -/
def Event.isTransport : Event → Bool
  | .transport _ _ _ => true
  | .unmarshal _ _ _ _ => false

/-- The transport methods of the client, over a state `σ` of the remote side. -/
structure Transport (σ : Type) where
  Get : String → Option Values → σ → (Bytes × Option GoError) × σ
  PostForm : String → Values → σ → (Bytes × Option GoError) × σ
  PostJSON : String → GoValue → σ → (Bytes × Option GoError) × σ

/-- What `methods.go` takes from outside: the transport methods of `Client`, the behaviour
of `json.Unmarshal` (target type, input, current target value; returns the target value it
leaves and its error), and the declaration of the type `Amount`. -/
structure Client (σ : Type) where
  transport : Transport σ
  json : GoType → Bytes → GoValue → GoValue × Option GoError
  Amount : GoType

/-- The state of the remote side and the steps recorded so far. -/
structure World (σ : Type) where
  remote : σ
  trace : List Event

/-- What a transport call returns: body, error, and the world after it. -/
abbrev Reply (σ : Type) := (Bytes × Option GoError) × World σ

/-- What an operation returns: result, error, and the world after it. -/
abbrev Outcome (σ : Type) := (GoValue × Option GoError) × World σ

variable {σ : Type}

/-- The method `c.Get(path, params)`, recorded. -/
def Client.Get (c : Client σ) (path : String) (params : Option Values) (w : World σ) :
    Reply σ :=
  let r := c.transport.Get path params w.remote
  (r.1, ⟨r.2, w.trace ++ [Event.transport (Call.Get path params) r.1.1 r.1.2]⟩)

/-- The method `c.PostForm(path, params)`, recorded. -/
def Client.PostForm (c : Client σ) (path : String) (params : Values) (w : World σ) :
    Reply σ :=
  let r := c.transport.PostForm path params w.remote
  (r.1, ⟨r.2, w.trace ++ [Event.transport (Call.PostForm path params) r.1.1 r.1.2]⟩)

/-- The method `c.PostJSON(path, params)`, recorded. -/
def Client.PostJSON (c : Client σ) (path : String) (params : GoValue) (w : World σ) :
    Reply σ :=
  let r := c.transport.PostJSON path params w.remote
  (r.1, ⟨r.2, w.trace ++ [Event.transport (Call.PostJSON path params) r.1.1 r.1.2]⟩)

/-- The call `json.Unmarshal(body, &response)` with `response` of type `T`, recorded. -/
def Client.Unmarshal (c : Client σ) (T : GoType) (body : Bytes) (response : GoValue)
    (w : World σ) : Outcome σ :=
  let d := c.json T body response
  (d, ⟨w.remote, w.trace ++ [Event.unmarshal T body d.1 d.2]⟩)

/-! ## Response types declared in `methods.go` -/

/-- The type `Response` of `AccountReceiveAddress` and of `AccountGenerateReceiveAddress`. -/
def ReceiveAddressResponse : GoType :=
  .struct [("Success", none, .bool), ("Address", none, .string),
    ("CallbackUrl", some "callback_url", .string)]

/-- The type `Address` of `Addresses`. -/
def AddressesAddress : GoType :=
  .struct [("Address", none, .struct [("Address", none, .string),
    ("CallbackUrl", some "callback_url", .string), ("Label", none, .string),
    ("CreatedAt", some "created_at", .string)])]

/-- The type `Response` of `Addresses`. -/
def AddressesResponse : GoType :=
  .struct [("Addresses", none, .slice AddressesAddress),
    ("TotalCount", some "total_count", .int), ("NumPages", some "num_pages", .int),
    ("CurrentPage", some "current_page", .int)]

/-- The type `CentsAmount` of `Buys`, `Sells` and `Transfers`. -/
def CentsAmount : GoType :=
  .struct [("Cents", none, .int), ("CurrencyISO", some "currency_iso", .string)]

/-- The type `Transfer` of `Buys`, `Sells` and `Transfers`. -/
def Transfer (Amount : GoType) : GoType :=
  .struct [("ID", none, .string), ("Type", none, .string), ("Code", none, .string),
    ("CreatedAt", some "created_at", .string), ("Fees", none, .map CentsAmount),
    ("Status", none, .string), ("PayoutDate", some "payout_date", .string),
    ("TransactionID", some "transaction_id", .string), ("BTC", none, Amount),
    ("Subtotal", none, Amount), ("Total", none, Amount), ("Description", none, .string)]

/-- The type `Response` of `Buys` and of `Sells`. -/
def TransferResponse (Amount : GoType) : GoType :=
  .struct [("Success", none, .bool), ("Errors", none, .slice .string),
    ("Transfer", none, Transfer Amount)]

/-- The type `Response` of `Contacts`, with `Contact` inlined. -/
def ContactsResponse : GoType :=
  .struct [("Contacts", none, .slice (.struct [("Email", none, .string)])),
    ("TotalCount", none, .int), ("NumPages", none, .int), ("CurrentPage", none, .int)]

/-- The type `TotalCurrency` of `Orders`. -/
def TotalCurrency : GoType :=
  .struct [("Cents", none, .int), ("CurrencyISO", none, .string)]

/-- The type `Order` of `Orders`, with `Button` and `Transaction` inlined. -/
def Order : GoType :=
  .struct [("ID", none, .string), ("CreatedAt", none, .string), ("Status", none, .string),
    ("TotalBTC", none, TotalCurrency), ("TotalNative", none, TotalCurrency),
    ("Custom", none, .string),
    ("Button", none, .struct [("Type", none, .string), ("Name", none, .string),
      ("Description", none, .string), ("ID", none, .string)]),
    ("Transaction", none, .struct [("ID", none, .string), ("Hash", none, .string),
      ("Confirmations", none, .int)])]

/-- The type `Response` of `Orders`. -/
def OrdersResponse : GoType :=
  .struct [("Orders", none, .slice Order),
    ("TotalCount", none, .int), ("NumPages", none, .int), ("CurrentPage", none, .int)]

/-- The type `Response` of `PricesBuy`. -/
def PricesBuyResponse (Amount : GoType) : GoType :=
  .struct [("SubTotal", none, Amount), ("Fees", none, .slice (.map Amount)),
    ("Total", none, Amount)]

/-- The type `Response` of `PricesSell`. -/
def PricesSellResponse (Amount : GoType) : GoType :=
  .struct [("SubTotal", none, Amount), ("Fees", none, .slice (.map Amount)),
    ("Total", none, Amount), ("Amount", none, .string), ("Currency", none, .string)]

/-- The type `Response` of `Transfers`. -/
def TransfersResponse (Amount : GoType) : GoType :=
  .struct [("Transfers", none, .slice (.map (Transfer Amount))),
    ("TotalCount", some "total_count", .int), ("NumPages", some "num_pages", .int),
    ("CurrentPage", some "current_page", .int)]

/-- The type `User` of `Users`. -/
def User (Amount : GoType) : GoType :=
  .struct [("User", none, .struct [("ID", none, .string), ("Name", none, .string),
    ("Email", none, .string), ("TimeZone", some "time_zone", .string),
    ("NativeCurrency", some "native_currency", .string), ("Balance", none, Amount),
    ("BuyLevel", some "buy_level", .int), ("SellLevel", some "sell_level", .int),
    ("BuyLimit", some "buy_limit", Amount), ("SellLimit", some "sell_limit", Amount)])]

/-- The type `Response` of `Users`. -/
def UsersResponse (Amount : GoType) : GoType :=
  .struct [("Users", none, .slice (User Amount))]

/-! ## The operations of `methods.go` -/

/-- The operation `AccountBalance`. -/
def Client.AccountBalance (c : Client σ) (w : World σ) : Outcome σ :=
  let r := c.Get "account/balance" none w
  match r.1.2 with
  | some err => ((c.Amount.zero, some err), r.2)
  | none =>
    let response := c.Amount.zero
    let d := c.Unmarshal c.Amount r.1.1 response r.2
    match d.1.2 with
    | some err => ((c.Amount.zero, some err), d.2)
    | none => ((d.1.1, none), d.2)

/-- The operation `AccountReceiveAddress`. -/
def Client.AccountReceiveAddress (c : Client σ) (w : World σ) : Outcome σ :=
  let r := c.Get "account/receive_address" none w
  match r.1.2 with
  | some err => ((.nil, some err), r.2)
  | none =>
    let response := ReceiveAddressResponse.zero
    let d := c.Unmarshal ReceiveAddressResponse r.1.1 response r.2
    match d.1.2 with
    | some err => ((.nil, some err), d.2)
    | none => ((d.1.1, none), d.2)

/-- The operation `AccountGenerateReceiveAddress`. -/
def Client.AccountGenerateReceiveAddress (c : Client σ) (callbackURL : String) (w : World σ) :
    Outcome σ :=
  let params := GoValue.map []
  let params := if callbackURL ≠ "" then
      params.mapSet "address" (GoValue.map [("callback_url", GoValue.str callbackURL)])
    else params
  let r := c.PostJSON "account/generate_receive_address" params w
  match r.1.2 with
  | some err => ((.nil, some err), r.2)
  | none =>
    let response := ReceiveAddressResponse.zero
    let d := c.Unmarshal ReceiveAddressResponse r.1.1 response r.2
    match d.1.2 with
    | some err => ((.nil, some err), d.2)
    | none => ((d.1.1, none), d.2)

/-- The operation `Addresses`. -/
def Client.Addresses (c : Client σ) (page limit : Int) (query : String) (w : World σ) :
    Outcome σ :=
  let params : Values := []
  let params := if page ≠ 0 then params.Set "page" (Itoa page) else params
  let params := if limit ≠ 0 then params.Set "limit" (Itoa limit) else params
  let params := if query ≠ "" then params.Set "query" query else params
  let r := c.Get "addresses" (some params) w
  match r.1.2 with
  | some err => ((.nil, some err), r.2)
  | none =>
    let response := AddressesResponse.zero
    let d := c.Unmarshal AddressesResponse r.1.1 response r.2
    match d.1.2 with
    | some err => ((.nil, some err), d.2)
    | none => ((d.1.1, none), d.2)

/-- The operation `Buys`. -/
def Client.Buys (c : Client σ) (quantity : Float32) (agree_btc_amount_varies : Bool)
    (w : World σ) : Outcome σ :=
  let params : Values := []
  let params := params.Set "qty" (Sprintf_8f quantity)
  let params := if agree_btc_amount_varies then params.Set "agree_btc_amount_varies" "true"
    else params
  let r := c.PostForm "buys" params w
  match r.1.2 with
  | some err => ((.nil, some err), r.2)
  | none =>
    let response := (TransferResponse c.Amount).zero
    let d := c.Unmarshal (TransferResponse c.Amount) r.1.1 response r.2
    match d.1.2 with
    | some err => ((.nil, some err), d.2)
    | none => ((d.1.1, none), d.2)

/-- The operation `Contacts`. -/
def Client.Contacts (c : Client σ) (w : World σ) : Outcome σ :=
  let r := c.Get "contacts" none w
  match r.1.2 with
  | some err => ((.nil, some err), r.2)
  | none =>
    let response := ContactsResponse.zero
    let d := c.Unmarshal ContactsResponse r.1.1 response r.2
    match d.1.2 with
    | some err => ((.nil, some err), d.2)
    | none => ((d.1.1, none), d.2)

/-- The operation `Currencies`. -/
def Client.Currencies (c : Client σ) (w : World σ) : Outcome σ :=
  let r := c.Get "currencies" none w
  match r.1.2 with
  | some err => ((.nil, some err), r.2)
  | none =>
    let response := (GoType.slice (.slice .string)).zero
    let d := c.Unmarshal (GoType.slice (.slice .string)) r.1.1 response r.2
    match d.1.2 with
    | some err => ((.nil, some err), d.2)
    | none => ((d.1.1, none), d.2)

/-- The operation `CurrenciesExchangeRates`. -/
def Client.CurrenciesExchangeRates (c : Client σ) (w : World σ) : Outcome σ :=
  let r := c.Get "currencies/exchange_rates" none w
  match r.1.2 with
  | some err => ((.nil, some err), r.2)
  | none =>
    let response := (GoType.map .string).zero
    let d := c.Unmarshal (GoType.map .string) r.1.1 response r.2
    match d.1.2 with
    | some err => ((.nil, some err), d.2)
    | none => ((d.1.1, none), d.2)

/-- The operation `Orders`. -/
def Client.Orders (c : Client σ) (w : World σ) : Outcome σ :=
  let r := c.Get "orders" none w
  match r.1.2 with
  | some err => ((.nil, some err), r.2)
  | none =>
    let response := OrdersResponse.zero
    let d := c.Unmarshal OrdersResponse r.1.1 response r.2
    match d.1.2 with
    | some err => ((.nil, some err), d.2)
    | none => ((d.1.1, none), d.2)

/-- The operation `PricesBuy`. -/
def Client.PricesBuy (c : Client σ) (w : World σ) : Outcome σ :=
  let r := c.Get "prices/buy" none w
  match r.1.2 with
  | some err => ((.nil, some err), r.2)
  | none =>
    let response := (PricesBuyResponse c.Amount).zero
    let d := c.Unmarshal (PricesBuyResponse c.Amount) r.1.1 response r.2
    match d.1.2 with
    | some err => ((.nil, some err), d.2)
    | none => ((d.1.1, none), d.2)

/-- The operation `PricesSell`. -/
def Client.PricesSell (c : Client σ) (w : World σ) : Outcome σ :=
  let r := c.Get "prices/sell" none w
  match r.1.2 with
  | some err => ((.nil, some err), r.2)
  | none =>
    let response := (PricesSellResponse c.Amount).zero
    let d := c.Unmarshal (PricesSellResponse c.Amount) r.1.1 response r.2
    match d.1.2 with
    | some err => ((.nil, some err), d.2)
    | none => ((d.1.1, none), d.2)

/-- The operation `PricesSpotRate`. -/
def Client.PricesSpotRate (c : Client σ) (w : World σ) : Outcome σ :=
  let r := c.Get "prices/spot_rate" none w
  match r.1.2 with
  | some err => ((c.Amount.zero, some err), r.2)
  | none =>
    let response := c.Amount.zero
    let d := c.Unmarshal c.Amount r.1.1 response r.2
    match d.1.2 with
    | some err => ((c.Amount.zero, some err), d.2)
    | none => ((d.1.1, none), d.2)

/-- The operation `PricesHistorical`. -/
def Client.PricesHistorical (c : Client σ) (page : Int) (w : World σ) : Outcome σ :=
  let params : Values := []
  let params := if page ≠ 0 then params.Set "page" (Itoa page) else params
  let r := c.Get "prices/historical" (some params) w
  match r.1.2 with
  | some err => ((.str "", some err), r.2)
  | none => ((.str r.1.1, none), r.2)

/-- The operation `Sells`. -/
def Client.Sells (c : Client σ) (quantity : Float32) (w : World σ) : Outcome σ :=
  let params : Values := []
  let params := params.Set "qty" (Sprintf_8f quantity)
  let r := c.PostForm "sells" params w
  match r.1.2 with
  | some err => ((.nil, some err), r.2)
  | none =>
    let response := (TransferResponse c.Amount).zero
    let d := c.Unmarshal (TransferResponse c.Amount) r.1.1 response r.2
    match d.1.2 with
    | some err => ((.nil, some err), d.2)
    | none => ((d.1.1, none), d.2)

/-- The operation `Transfers`. -/
def Client.Transfers (c : Client σ) (page limit : Int) (w : World σ) : Outcome σ :=
  let params : Values := []
  let params := if page ≠ 0 then params.Set "page" (Itoa page) else params
  let params := if limit ≠ 0 then params.Set "limit" (Itoa limit) else params
  let r := c.Get "transfers" (some params) w
  match r.1.2 with
  | some err => ((.nil, some err), r.2)
  | none =>
    let response := (TransfersResponse c.Amount).zero
    let d := c.Unmarshal (TransfersResponse c.Amount) r.1.1 response r.2
    match d.1.2 with
    | some err => ((.nil, some err), d.2)
    | none => ((d.1.1, none), d.2)

/-- The operation `Users`. -/
def Client.Users (c : Client σ) (w : World σ) : Outcome σ :=
  let r := c.Get "users" none w
  match r.1.2 with
  | some err => ((.nil, some err), r.2)
  | none =>
    let response := (UsersResponse c.Amount).zero
    let d := c.Unmarshal (UsersResponse c.Amount) r.1.1 response r.2
    match d.1.2 with
    | some err => ((.nil, some err), d.2)
    | none => ((d.1.1, none), d.2)

/-- An operation of `methods.go` with its arguments. -/
inductive Operation where
  | AccountBalance
  | AccountReceiveAddress
  | AccountGenerateReceiveAddress (callbackURL : String)
  | Addresses (page limit : Int) (query : String)
  | Buys (quantity : Float32) (agree_btc_amount_varies : Bool)
  | Contacts
  | Currencies
  | CurrenciesExchangeRates
  | Orders
  | PricesBuy
  | PricesSell
  | PricesSpotRate
  | PricesHistorical (page : Int)
  | Sells (quantity : Float32)
  | Transfers (page limit : Int)
  | Users

/-- Calling an operation on a client. -/
def Operation.run (c : Client σ) : Operation → World σ → Outcome σ
  | .AccountBalance => c.AccountBalance
  | .AccountReceiveAddress => c.AccountReceiveAddress
  | .AccountGenerateReceiveAddress callbackURL => c.AccountGenerateReceiveAddress callbackURL
  | .Addresses page limit query => c.Addresses page limit query
  | .Buys quantity agree => c.Buys quantity agree
  | .Contacts => c.Contacts
  | .Currencies => c.Currencies
  | .CurrenciesExchangeRates => c.CurrenciesExchangeRates
  | .Orders => c.Orders
  | .PricesBuy => c.PricesBuy
  | .PricesSell => c.PricesSell
  | .PricesSpotRate => c.PricesSpotRate
  | .PricesHistorical page => c.PricesHistorical page
  | .Sells quantity => c.Sells quantity
  | .Transfers page limit => c.Transfers page limit
  | .Users => c.Users

/-- The zero value of the declared result type of an operation: `Amount{}` for the two
operations returning `Amount`, `""` for the one returning `string`, `nil` for those
returning `interface{}`. -/
def Operation.empty (c : Client σ) : Operation → GoValue
  | .AccountBalance => c.Amount.zero
  | .PricesSpotRate => c.Amount.zero
  | .PricesHistorical _ => .str ""
  | _ => .nil

/-- The steps an operation call adds to the trace. -/
def Operation.steps (c : Client σ) (op : Operation) (w : World σ) : List Event :=
  (op.run c w).2.trace.drop w.trace.length

/-- The transport calls an operation call adds to the trace. -/
def Operation.transportSteps (c : Client σ) (op : Operation) (w : World σ) : List Event :=
  (op.steps c w).filter Event.isTransport

/-! ## Sample clients -/

/-- Modelled from the spec: the type `Amount`, declared outside `methods.go`; the spec gives
it a decimal-string value, sent under `amount`, and a currency code. -/
def sampleAmount : GoType :=
  .struct [("Amount", none, .string), ("Currency", none, .string)]

/-- A transport that answers every call with the same body and error. -/
def constTransport (body : Bytes) (err : Option GoError) : Transport Unit where
  Get := fun _ _ s => ((body, err), s)
  PostForm := fun _ _ s => ((body, err), s)
  PostJSON := fun _ _ s => ((body, err), s)

/-- The error of a transport that cannot connect. -/
def connectionRefused : GoError := ⟨"dial tcp: connection refused"⟩

/-- A client whose transport fails on every call; its decoder leaves the target as it is. -/
def refusingClient : Client Unit :=
  ⟨constTransport "" (some connectionRefused), fun _ _ v => (v, none), sampleAmount⟩

/-- A world with nothing recorded. -/
def emptyWorld : World Unit := ⟨(), []⟩

/-- A sample body of the `contacts` endpoint. -/
def contactsBody : Bytes :=
  "\x7b\"contacts\":[],\"total_count\":3,\"num_pages\":2,\"current_page\":1\x7d"

/-- A sample body of the `orders` endpoint. -/
def ordersBody : Bytes :=
  "\x7b\"orders\":[],\"total_count\":3,\"num_pages\":2,\"current_page\":1\x7d"

/-- A sample body of the `addresses` endpoint. -/
def addressesBody : Bytes :=
  "\x7b\"addresses\":[],\"total_count\":3,\"num_pages\":2,\"current_page\":1\x7d"

/-- A body of the `addresses` endpoint whose `total_count` is a string, not a number. -/
def mistypedBody : Bytes :=
  "\x7b\"addresses\":[],\"total_count\":\"x\",\"num_pages\":2,\"current_page\":1\x7d"

/-- A sample body of the `transfers` endpoint. -/
def transfersBody : Bytes :=
  "\x7b\"transfers\":[],\"total_count\":3,\"num_pages\":2,\"current_page\":1\x7d"

/-- The JSON object of a sample body: an empty list under `items` and the three pagination
keys of the wire format. -/
def sampleObject (items : String) : JValue :=
  .obj [(items, .arr []), ("total_count", .int 3), ("num_pages", .int 2),
    ("current_page", .int 1)]

/-- A parser of JSON text that knows the five sample bodies and refuses any other text. -/
def sampleParse (body : Bytes) : Except GoError JValue :=
  if body = contactsBody then .ok (sampleObject "contacts")
  else if body = mistypedBody then
    .ok (.obj [("addresses", .arr []), ("total_count", .str "x"), ("num_pages", .int 2),
      ("current_page", .int 1)])
  else if body = ordersBody then .ok (sampleObject "orders")
  else if body = addressesBody then .ok (sampleObject "addresses")
  else if body = transfersBody then .ok (sampleObject "transfers")
  else .error ⟨"invalid character"⟩

/-- A client whose transport answers every call with `body` and whose decoder is
`jsonUnmarshal`. -/
def sampleClient (body : Bytes) : Client Unit :=
  ⟨constTransport body none, jsonUnmarshal sampleParse, sampleAmount⟩

/-- The three pagination fields of a returned record. -/
def pagination (v : GoValue) : Option Int × Option Int × Option Int :=
  (v.intField "TotalCount", v.intField "NumPages", v.intField "CurrentPage")

/-! ## Theorems -/

/-- Dropping the old trace from the old trace followed by one step. -/
theorem drop_trace_one (t : List Event) (a : Event) : (t ++ [a]).drop t.length = [a] := by
  simp

/-- Dropping the old trace from the old trace followed by two steps. -/
theorem drop_trace_two (t : List Event) (a b : Event) :
    (t ++ [a] ++ [b]).drop t.length = [a, b] := by
  simp

/-- C9: every operation calls the transport exactly once, whatever the outcome: the
transport calls it adds to the trace are exactly one. -/
theorem transport_called_exactly_once (c : Client σ) (op : Operation) (w : World σ) :
    (op.transportSteps c w).length = 1 := by
  cases op <;>
    simp only [Operation.transportSteps, Operation.steps, Operation.run,
      Client.AccountBalance, Client.AccountReceiveAddress, Client.AccountGenerateReceiveAddress,
      Client.Addresses, Client.Buys, Client.Contacts, Client.Currencies,
      Client.CurrenciesExchangeRates, Client.Orders, Client.PricesBuy, Client.PricesSell,
      Client.PricesSpotRate, Client.PricesHistorical, Client.Sells, Client.Transfers,
      Client.Users, Client.Get, Client.PostForm, Client.PostJSON, Client.Unmarshal] <;>
    (repeat' split) <;>
    simp [drop_trace_one, drop_trace_two, Event.isTransport]

/-! ### Facts about `url.Values` -/

/-- Looking a key up after `Set`. -/
theorem Values.lookup_Set (v : Values) (key value k : String) :
    Values.lookup (Values.Set v key value) k
      = if key = k then some [value] else Values.lookup v k := by
  induction v with
  | nil =>
    by_cases h : key = k <;> simp [Values.Set, Values.lookup, h]
  | cons hd tl ih =>
    obtain ⟨k0, vs⟩ := hd
    by_cases h0 : k0 = key
    · by_cases h : key = k
      · simp [Values.Set, Values.lookup, h0, h]
      · subst h0
        simp [Values.Set, Values.lookup, h]
    · by_cases h : key = k
      · subst h
        simp [Values.Set, Values.lookup, h0, ih]
      · by_cases h1 : k0 = k
        · subst h1
          simp [Values.Set, Values.lookup, h0, h, ih]
        · simp [Values.Set, Values.lookup, h0, h, h1, ih]

/-- Looking a key up in the empty `Values`. -/
theorem Values.lookup_nil (k : String) : Values.lookup [] k = none := rfl

/-! ### The steps of the operations that send parameters -/

/-- The transport call of `Addresses`. -/
theorem Addresses_transportSteps (c : Client σ) (w : World σ) (page limit : Int)
    (query : String) :
    ∃ b e, (Operation.Addresses page limit query).transportSteps c w
      = [Event.transport (Call.Get "addresses" (some
          (if query ≠ "" then Values.Set
            (if limit ≠ 0 then Values.Set
              (if page ≠ 0 then Values.Set [] "page" (Itoa page) else [])
              "limit" (Itoa limit)
             else (if page ≠ 0 then Values.Set [] "page" (Itoa page) else []))
            "query" query
           else
            (if limit ≠ 0 then Values.Set
              (if page ≠ 0 then Values.Set [] "page" (Itoa page) else [])
              "limit" (Itoa limit)
             else (if page ≠ 0 then Values.Set [] "page" (Itoa page) else []))))) b e] := by
  simp only [Operation.transportSteps, Operation.steps, Operation.run, Client.Addresses,
      Client.Get, Client.Unmarshal]
  split
  · simp [drop_trace_one, Event.isTransport]
  · split <;> simp [drop_trace_two, Event.isTransport]

/-- The transport call of `Transfers`. -/
theorem Transfers_transportSteps (c : Client σ) (w : World σ) (page limit : Int) :
    ∃ b e, (Operation.Transfers page limit).transportSteps c w
      = [Event.transport (Call.Get "transfers" (some
            (if limit ≠ 0 then Values.Set
              (if page ≠ 0 then Values.Set [] "page" (Itoa page) else [])
              "limit" (Itoa limit)
             else (if page ≠ 0 then Values.Set [] "page" (Itoa page) else [])))) b e] := by
  simp only [Operation.transportSteps, Operation.steps, Operation.run, Client.Transfers,
      Client.Get, Client.Unmarshal]
  split
  · simp [drop_trace_one, Event.isTransport]
  · split <;> simp [drop_trace_two, Event.isTransport]

/-- The steps and the outcome of `PricesHistorical`. -/
theorem PricesHistorical_steps (c : Client σ) (w : World σ) (page : Int)
    (ps : Values) (hps : ps = if page ≠ 0 then Values.Set [] "page" (Itoa page) else []) :
    (Operation.PricesHistorical page).steps c w
        = [Event.transport (Call.Get "prices/historical" (some ps))
            (c.transport.Get "prices/historical" (some ps) w.remote).1.1
            (c.transport.Get "prices/historical" (some ps) w.remote).1.2]
      ∧ ((Operation.PricesHistorical page).run c w).1.2
          = (c.transport.Get "prices/historical" (some ps) w.remote).1.2
      ∧ ((Operation.PricesHistorical page).run c w).1.1
          = (if (c.transport.Get "prices/historical" (some ps) w.remote).1.2 = none
              then GoValue.str (c.transport.Get "prices/historical" (some ps) w.remote).1.1
              else GoValue.str "") := by
  simp only [Operation.steps, Operation.run, Client.PricesHistorical, Client.Get]
  rw [← hps]
  split
  · rename_i e h
    simp [drop_trace_one, h]
  · rename_i h
    simp [drop_trace_one, h]

/-- The transport call of `PricesHistorical`. -/
theorem PricesHistorical_transportSteps (c : Client σ) (w : World σ) (page : Int) :
    ∃ b e, (Operation.PricesHistorical page).transportSteps c w
      = [Event.transport (Call.Get "prices/historical" (some
          (if page ≠ 0 then Values.Set [] "page" (Itoa page) else []))) b e] := by
  have h := (PricesHistorical_steps c w page _ rfl).1
  refine ⟨(c.transport.Get "prices/historical" (some
      (if page ≠ 0 then Values.Set [] "page" (Itoa page) else [])) w.remote).1.1,
    (c.transport.Get "prices/historical" (some
      (if page ≠ 0 then Values.Set [] "page" (Itoa page) else [])) w.remote).1.2, ?_⟩
  simp only [Operation.transportSteps, h, List.filter, Event.isTransport]

/-- The transport call of `Buys`. -/
theorem Buys_transportSteps (c : Client σ) (w : World σ) (quantity : Float32)
    (agree : Bool) :
    ∃ b e, (Operation.Buys quantity agree).transportSteps c w
      = [Event.transport (Call.PostForm "buys"
          (if agree = true then
            Values.Set (Values.Set [] "qty" (Sprintf_8f quantity)) "agree_btc_amount_varies" "true"
           else Values.Set [] "qty" (Sprintf_8f quantity))) b e] := by
  simp only [Operation.transportSteps, Operation.steps, Operation.run, Client.Buys,
      Client.PostForm, Client.Unmarshal]
  split
  · simp [drop_trace_one, Event.isTransport]
  · split <;> simp [drop_trace_two, Event.isTransport]

/-- The transport call of `Sells`. -/
theorem Sells_transportSteps (c : Client σ) (w : World σ) (quantity : Float32) :
    ∃ b e, (Operation.Sells quantity).transportSteps c w
      = [Event.transport (Call.PostForm "sells"
          (Values.Set [] "qty" (Sprintf_8f quantity))) b e] := by
  simp only [Operation.transportSteps, Operation.steps, Operation.run, Client.Sells,
      Client.PostForm, Client.Unmarshal]
  split
  · simp [drop_trace_one, Event.isTransport]
  · split <;> simp [drop_trace_two, Event.isTransport]

/-! ### Request parameters -/

/-- C1: the query parameters of `Addresses`, `Transfers` and `PricesHistorical` hold
`page` exactly when `page != 0`, and those of `Addresses` and `Transfers` hold `limit`
exactly when `limit != 0`; a key that is present holds the one value `Itoa` of its
argument.  `PricesHistorical` never sends `limit`. -/
theorem page_limit_sent_iff_nonzero (c : Client σ) (w : World σ) (page limit : Int)
    (query : String) :
    (∃ ps b e, (Operation.Addresses page limit query).transportSteps c w
        = [Event.transport (Call.Get "addresses" (some ps)) b e]
      ∧ ps.lookup "page" = (if page = 0 then none else some [Itoa page])
      ∧ ps.lookup "limit" = (if limit = 0 then none else some [Itoa limit]))
    ∧ (∃ ps b e, (Operation.Transfers page limit).transportSteps c w
        = [Event.transport (Call.Get "transfers" (some ps)) b e]
      ∧ ps.lookup "page" = (if page = 0 then none else some [Itoa page])
      ∧ ps.lookup "limit" = (if limit = 0 then none else some [Itoa limit]))
    ∧ (∃ ps b e, (Operation.PricesHistorical page).transportSteps c w
        = [Event.transport (Call.Get "prices/historical" (some ps)) b e]
      ∧ ps.lookup "page" = (if page = 0 then none else some [Itoa page])
      ∧ ps.lookup "limit" = none) := by
  refine ⟨?_, ?_, ?_⟩
  · obtain ⟨b, e, h⟩ := Addresses_transportSteps c w page limit query
    refine ⟨_, b, e, h, ?_, ?_⟩ <;>
      by_cases hp : page = 0 <;> by_cases hl : limit = 0 <;> by_cases hq : query = "" <;>
      simp [Values.lookup_Set, Values.lookup_nil, hp, hl, hq]
  · obtain ⟨b, e, h⟩ := Transfers_transportSteps c w page limit
    refine ⟨_, b, e, h, ?_, ?_⟩ <;>
      by_cases hp : page = 0 <;> by_cases hl : limit = 0 <;>
      simp [Values.lookup_Set, Values.lookup_nil, hp, hl]
  · obtain ⟨b, e, h⟩ := PricesHistorical_transportSteps c w page
    refine ⟨_, b, e, h, ?_, ?_⟩ <;>
      by_cases hp : page = 0 <;> simp [Values.lookup_Set, Values.lookup_nil, hp]

/-- C10: the query parameters of `Addresses` hold `query` exactly when the query string is
non-empty, with the string itself as the one value; every key is given by its own argument
alone, and no key other than `page`, `limit` and `query` is present. -/
theorem addresses_query_params (c : Client σ) (w : World σ) (page limit : Int)
    (query : String) :
    ∃ ps b e, (Operation.Addresses page limit query).transportSteps c w
        = [Event.transport (Call.Get "addresses" (some ps)) b e]
      ∧ ps.lookup "query" = (if query = "" then none else some [query])
      ∧ ∀ k, ps.lookup k =
          if k = "page" then (if page = 0 then none else some [Itoa page])
          else if k = "limit" then (if limit = 0 then none else some [Itoa limit])
          else if k = "query" then (if query = "" then none else some [query])
          else none := by
  obtain ⟨b, e, h⟩ := Addresses_transportSteps c w page limit query
  refine ⟨_, b, e, h, ?_, ?_⟩
  · by_cases hp : page = 0 <;> by_cases hl : limit = 0 <;> by_cases hq : query = "" <;>
      simp [Values.lookup_Set, Values.lookup_nil, hp, hl, hq]
  · intro k
    by_cases h1 : k = "page"
    · subst h1
      by_cases hp : page = 0 <;> by_cases hl : limit = 0 <;> by_cases hq : query = "" <;>
        simp [Values.lookup_Set, Values.lookup_nil, hp, hl, hq]
    · by_cases h2 : k = "limit"
      · subst h2
        by_cases hp : page = 0 <;> by_cases hl : limit = 0 <;> by_cases hq : query = "" <;>
          simp [Values.lookup_Set, Values.lookup_nil, hp, hl, hq]
      · by_cases h3 : k = "query"
        · subst h3
          by_cases hp : page = 0 <;> by_cases hl : limit = 0 <;> by_cases hq : query = "" <;>
            simp [Values.lookup_Set, Values.lookup_nil, hp, hl, hq]
        · by_cases hp : page = 0 <;> by_cases hl : limit = 0 <;> by_cases hq : query = "" <;>
            simp [Values.lookup_Set, Values.lookup_nil, hp, hl, hq, h1, h2, h3,
              Ne.symm h1, Ne.symm h2, Ne.symm h3]

/-- C5: the body `AccountGenerateReceiveAddress` passes to `PostJSON` is the empty map when
`callbackURL` is empty and the map with the one entry `address`, itself the map with the
one entry `callback_url` holding `callbackURL`, otherwise. -/
theorem generate_receive_address_body (c : Client σ) (w : World σ) (callbackURL : String) :
    ∃ b e, (Operation.AccountGenerateReceiveAddress callbackURL).transportSteps c w
      = [Event.transport (Call.PostJSON "account/generate_receive_address"
          (if callbackURL = "" then GoValue.map []
           else GoValue.map [("address", GoValue.map [("callback_url", GoValue.str callbackURL)])]))
          b e] := by
  simp only [Operation.transportSteps, Operation.steps, Operation.run,
      Client.AccountGenerateReceiveAddress, Client.PostJSON, Client.Unmarshal]
  by_cases h : callbackURL = ""
  · subst h
    split
    · simp [drop_trace_one, Event.isTransport]
    · split <;> simp [drop_trace_two, Event.isTransport]
  · split
    · simp [drop_trace_one, Event.isTransport, h, GoValue.mapSet]
    · split <;> simp [drop_trace_two, Event.isTransport, h, GoValue.mapSet]

/-- C7: `PricesHistorical` passes the body through: it makes its one transport call and
nothing else, returns the error of that call, and when that error is nil returns the body
as a string, whatever the body is; no decoding takes place. -/
theorem prices_historical_pass_through (c : Client σ) (w : World σ) (page : Int) :
    ∃ ps, (Operation.PricesHistorical page).steps c w
        = [Event.transport (Call.Get "prices/historical" (some ps))
            (c.transport.Get "prices/historical" (some ps) w.remote).1.1
            (c.transport.Get "prices/historical" (some ps) w.remote).1.2]
      ∧ ((Operation.PricesHistorical page).run c w).1.2
          = (c.transport.Get "prices/historical" (some ps) w.remote).1.2
      ∧ ((Operation.PricesHistorical page).run c w).1.1
          = (if (c.transport.Get "prices/historical" (some ps) w.remote).1.2 = none
              then GoValue.str (c.transport.Get "prices/historical" (some ps) w.remote).1.1
              else GoValue.str "") :=
  ⟨_, PricesHistorical_steps c w page _ rfl⟩

/-! ### Decimal digits -/

/-- A digit value below ten is rendered as a decimal digit character. -/
theorem digitChar_isDigit (d : Nat) (h : d < 10) : (Nat.digitChar d).isDigit = true := by
  interval_cases d <;> decide

/-- The digits `Nat.toDigitsCore` produces in base ten are decimal digits. -/
theorem toDigitsCore_isDigit (fuel : Nat) :
    ∀ (n : Nat) (acc : List Char), (∀ ch ∈ acc, ch.isDigit = true) →
      ∀ ch ∈ Nat.toDigitsCore 10 fuel n acc, ch.isDigit = true := by
  induction fuel with
  | zero => intro n acc h; simpa [Nat.toDigitsCore] using h
  | succ f ih =>
    intro n acc h
    have hd : ∀ ch ∈ Nat.digitChar (n % 10) :: acc, ch.isDigit = true := by
      intro ch hch
      rcases List.mem_cons.1 hch with rfl | hch
      · exact digitChar_isDigit _ (Nat.mod_lt _ (by decide))
      · exact h ch hch
    simp only [Nat.toDigitsCore]
    split
    · exact hd
    · exact ih _ _ hd

/-- With a non-empty accumulator `Nat.toDigitsCore` produces a non-empty list. -/
theorem toDigitsCore_ne_nil (fuel : Nat) :
    ∀ (n : Nat) (acc : List Char), acc ≠ [] → Nat.toDigitsCore 10 fuel n acc ≠ [] := by
  induction fuel with
  | zero => intro n acc h; simpa [Nat.toDigitsCore] using h
  | succ f ih =>
    intro n acc _
    simp only [Nat.toDigitsCore]
    split
    · simp
    · exact ih _ _ (by simp)

/-- The characters of `Nat.repr n` are decimal digits. -/
theorem repr_isDigit (n : Nat) : ∀ ch ∈ (Nat.repr n).data, ch.isDigit = true := by
  simp only [Nat.repr, Nat.toDigits, List.asString]
  exact toDigitsCore_isDigit _ _ _ (by simp)

/-- The rendering `Nat.repr n` is not empty. -/
theorem repr_ne_nil (n : Nat) : (Nat.repr n).data ≠ [] := by
  simp only [Nat.repr, Nat.toDigits, List.asString, Nat.toDigitsCore]
  split
  · simp
  · exact toDigitsCore_ne_nil _ _ _ (by simp)

/-- The list `fracDigits n prec` has `prec` characters. -/
theorem fracDigits_length (n prec : Nat) : (fracDigits n prec).length = prec := by
  simp [fracDigits]

/-- The characters of `fracDigits n prec` are decimal digits. -/
theorem fracDigits_isDigit (n prec : Nat) : ∀ ch ∈ fracDigits n prec, ch.isDigit = true := by
  intro ch h
  simp only [fracDigits, List.mem_map] at h
  obtain ⟨i, _, rfl⟩ := h
  exact digitChar_isDigit _ (Nat.mod_lt _ (by decide))

/-- Digits, a point and eight digits form a fixed-point string with 8 fractional digits,
with or without a leading minus sign. -/
theorem isFixed8_of_parts (neg : Bool) (ip fr : List Char) (hip : ip ≠ [])
    (hipd : ∀ ch ∈ ip, ch.isDigit = true) (hfr : fr.length = 8)
    (hfrd : ∀ ch ∈ fr, ch.isDigit = true) :
    isFixed8 (String.mk ((if neg then ['-'] else []) ++ ip ++ '.' :: fr)) = true := by
  have hdrop : List.dropWhile Char.isDigit (ip ++ '.' :: fr) = '.' :: fr := by
    rw [List.dropWhile_append_of_pos hipd]
    simp [List.dropWhile]
  have htake : List.takeWhile Char.isDigit (ip ++ '.' :: fr) = ip := by
    rw [List.takeWhile_append_of_pos hipd]
    simp [List.takeWhile]
  have hall : fr.all Char.isDigit = true := List.all_eq_true.2 hfrd
  have hne : ip.isEmpty = false := by
    cases ip with
    | nil => exact absurd rfl hip
    | cons a t => rfl
  cases neg with
  | true =>
    simp only [isFixed8, if_true, List.cons_append, List.nil_append, hdrop, htake, hne, hfr,
      hall]
    decide
  | false =>
    cases ip with
    | nil => exact absurd rfl hip
    | cons a t =>
      have ha : a ≠ '-' := by
        intro h
        have := hipd a (List.mem_cons_self _ _)
        rw [h] at this
        exact absurd this (by decide)
      have hcs : (match (a :: t) ++ '.' :: fr with
          | '-' :: r => r
          | r => r) = (a :: t) ++ '.' :: fr := by
        simp only [List.cons_append]
        split
        · rename_i h
          exact absurd (List.cons.inj h).1 ha
        · rfl
      simp only [isFixed8, Bool.false_eq_true, if_false, List.nil_append, hcs, hdrop, htake,
        hfr, hall]
      rfl

/-- A finite `float32` is printed by `%.8f` as a fixed-point string with exactly 8 digits
after the decimal point. -/
theorem isFixed8_Sprintf_8f (q : Float32) (h : q.isFinite = true) :
    isFixed8 (Sprintf_8f q) = true := by
  have hexp : q.exp.val ≠ 255 := by
    simpa [Float32.isFinite] using h
  have hs : Sprintf_8f q = String.mk ((if q.neg then ['-'] else [])
      ++ (Nat.repr (q.scaledRound 8 / 10 ^ 8)).data ++ '.' :: fracDigits (q.scaledRound 8) 8) := by
    simp only [Sprintf_8f, FormatFloat, hexp, if_false]
    cases q.neg <;> simp [String.ext_iff]
  rw [hs]
  exact isFixed8_of_parts _ _ _ (repr_ne_nil _) (repr_isDigit _) (fracDigits_length _ _)
    (fracDigits_isDigit _ _)

/-- No `float32` is printed by `%.8f` as the string `false`. -/
theorem Sprintf_8f_ne_false (q : Float32) : Sprintf_8f q ≠ "false" := by
  intro hq
  by_cases h : q.isFinite = true
  · have := isFixed8_Sprintf_8f q h
    rw [hq] at this
    exact absurd this (by decide)
  · have hexp : q.exp.val = 255 := by
      simpa [Float32.isFinite] using h
    simp only [Sprintf_8f, FormatFloat, hexp, if_true] at hq
    split at hq
    · exact absurd hq (by decide)
    · split at hq <;> exact absurd hq (by decide)

/-! ### Quantity and flag of `Buys` and `Sells` -/

/-- C2, amended: for every finite quantity, the one value `Buys` and `Sells` send under
`qty` is the `%.8f` rendering of the quantity, a fixed-point decimal string with exactly 8
digits after the decimal point. -/
theorem qty_fixed8_of_finite (c : Client σ) (w : World σ) (quantity : Float32)
    (agree : Bool) (h : quantity.isFinite = true) :
    (∃ ps b e, (Operation.Buys quantity agree).transportSteps c w
        = [Event.transport (Call.PostForm "buys" ps) b e]
      ∧ ps.lookup "qty" = some [Sprintf_8f quantity]
      ∧ isFixed8 (ps.Get "qty") = true)
    ∧ (∃ ps b e, (Operation.Sells quantity).transportSteps c w
        = [Event.transport (Call.PostForm "sells" ps) b e]
      ∧ ps.lookup "qty" = some [Sprintf_8f quantity]
      ∧ isFixed8 (ps.Get "qty") = true) := by
  have hf := isFixed8_Sprintf_8f quantity h
  refine ⟨?_, ?_⟩
  · obtain ⟨b, e, hs⟩ := Buys_transportSteps c w quantity agree
    refine ⟨_, b, e, hs, ?_, ?_⟩ <;>
      cases agree <;> simp [Values.Get, Values.lookup_Set, Values.lookup_nil, hf]
  · obtain ⟨b, e, hs⟩ := Sells_transportSteps c w quantity
    refine ⟨_, b, e, hs, ?_, ?_⟩ <;>
      simp [Values.Get, Values.lookup_Set, Values.lookup_nil, hf]

/-- C2, an instance: the quantity 1.5 is finite and is sent as `1.50000000`. -/
theorem qty_fixed8_of_finite_witness :
    f32_1_5.isFinite = true ∧ Sprintf_8f f32_1_5 = "1.50000000" ∧
    ((∃ ps b e, (Operation.Buys f32_1_5 true).transportSteps refusingClient emptyWorld
        = [Event.transport (Call.PostForm "buys" ps) b e]
      ∧ ps.lookup "qty" = some [Sprintf_8f f32_1_5]
      ∧ isFixed8 (ps.Get "qty") = true)
    ∧ (∃ ps b e, (Operation.Sells f32_1_5).transportSteps refusingClient emptyWorld
        = [Event.transport (Call.PostForm "sells" ps) b e]
      ∧ ps.lookup "qty" = some [Sprintf_8f f32_1_5]
      ∧ isFixed8 (ps.Get "qty") = true)) :=
  ⟨by decide, by decide, qty_fixed8_of_finite refusingClient emptyWorld f32_1_5 true (by decide)⟩

/-- C2 fails for a quantity that is not finite: for a NaN `Buys` sends the three letters
`NaN` under `qty`, and for the positive infinity `Sells` sends `+Inf`; neither has a
decimal point or a digit. -/
theorem qty_NaN_not_fixed8 :
    (∃ ps b e, (Operation.Buys f32_NaN false).transportSteps refusingClient emptyWorld
        = [Event.transport (Call.PostForm "buys" ps) b e]
      ∧ ps.lookup "qty" = some ["NaN"]
      ∧ isFixed8 (ps.Get "qty") = false)
    ∧ (∃ ps b e, (Operation.Sells f32_Inf).transportSteps refusingClient emptyWorld
        = [Event.transport (Call.PostForm "sells" ps) b e]
      ∧ ps.lookup "qty" = some ["+Inf"]
      ∧ isFixed8 (ps.Get "qty") = false) :=
  ⟨⟨[("qty", ["NaN"])], "", some connectionRefused, by rfl, by decide, by decide⟩,
    ⟨[("qty", ["+Inf"])], "", some connectionRefused, by rfl, by decide, by decide⟩⟩

/-- C6: the form parameters of `Buys` hold `agree_btc_amount_varies` exactly when the flag
is true, with the one value `true`; no value sent under any key is the string `false`. -/
theorem buys_agree_flag (c : Client σ) (w : World σ) (quantity : Float32) (agree : Bool) :
    ∃ ps b e, (Operation.Buys quantity agree).transportSteps c w
        = [Event.transport (Call.PostForm "buys" ps) b e]
      ∧ ps.lookup "agree_btc_amount_varies" = (if agree = true then some ["true"] else none)
      ∧ ∀ k vs, ps.lookup k = some vs → "false" ∉ vs := by
  obtain ⟨b, e, hs⟩ := Buys_transportSteps c w quantity agree
  have hq := Sprintf_8f_ne_false quantity
  refine ⟨_, b, e, hs, ?_, ?_⟩
  · cases agree <;> simp [Values.lookup_Set, Values.lookup_nil]
  · intro k vs hk
    cases agree
    · simp only [Bool.false_eq_true, if_false, Values.lookup_Set, Values.lookup_nil] at hk
      split at hk
      · cases hk
        simpa using Ne.symm hq
      · cases hk
    · simp only [if_true, Values.lookup_Set, Values.lookup_nil] at hk
      split at hk
      · cases hk
        decide
      · split at hk
        · cases hk
          simpa using Ne.symm hq
        · cases hk

/-! ### Errors and results -/

/-- C3: when the transport call of an operation returns an error, the operation returns
that same error with the empty result of its result type, and the transport call is its
only step: nothing is decoded. -/
theorem transport_error_returned_unchanged (c : Client σ) (op : Operation) (w : World σ)
    (call : Call) (body : Bytes) (e : GoError)
    (h : Event.transport call body (some e) ∈ op.steps c w) :
    (op.run c w).1 = (op.empty c, some e) ∧
      op.steps c w = [Event.transport call body (some e)] := by
  cases op <;>
    simp only [Operation.steps, Operation.run, Operation.empty,
      Client.AccountBalance, Client.AccountReceiveAddress, Client.AccountGenerateReceiveAddress,
      Client.Addresses, Client.Buys, Client.Contacts, Client.Currencies,
      Client.CurrenciesExchangeRates, Client.Orders, Client.PricesBuy, Client.PricesSell,
      Client.PricesSpotRate, Client.PricesHistorical, Client.Sells, Client.Transfers,
      Client.Users, Client.Get, Client.PostForm, Client.PostJSON, Client.Unmarshal] at h ⊢ <;>
    (repeat' split) <;>
    simp_all [drop_trace_one, drop_trace_two]

/-- C3, an instance: on a transport that refuses the connection, `AccountBalance` returns
that error and the zero `Amount`. -/
theorem transport_error_returned_unchanged_witness :
    Event.transport (Call.Get "account/balance" none) "" (some connectionRefused)
        ∈ Operation.AccountBalance.steps refusingClient emptyWorld
    ∧ (Operation.AccountBalance.run refusingClient emptyWorld).1
        = (Operation.AccountBalance.empty refusingClient, some connectionRefused)
    ∧ Operation.AccountBalance.steps refusingClient emptyWorld
        = [Event.transport (Call.Get "account/balance" none) "" (some connectionRefused)] :=
  ⟨List.Mem.head _,
    transport_error_returned_unchanged refusingClient Operation.AccountBalance emptyWorld
      (Call.Get "account/balance" none) "" connectionRefused (List.Mem.head _)⟩

/-- Every decoding operation ends the same way once the transport has replied: the empty
result with a transport error, else the body is decoded into a fresh response of type `T`,
and the empty result comes with a decode error, else the response.  An outcome of that
shape never pairs an error with a result, and with a nil error it holds what the decoder
left. -/
theorem decode_tail_exclusive (c : Client σ) (T : GoType) (E : GoValue) (t : List Event)
    (call : Call) (reply : Bytes × Option GoError) (s : σ) (out : Outcome σ)
    (hout : out = match reply.2 with
      | some err => ((E, some err), ⟨s, t ++ [Event.transport call reply.1 reply.2]⟩)
      | none =>
        match (c.json T reply.1 T.zero).2 with
        | some err => ((E, some err), ⟨s, t ++ [Event.transport call reply.1 reply.2]
            ++ [Event.unmarshal T reply.1 (c.json T reply.1 T.zero).1 (c.json T reply.1 T.zero).2]⟩)
        | none => (((c.json T reply.1 T.zero).1, none),
            ⟨s, t ++ [Event.transport call reply.1 reply.2]
            ++ [Event.unmarshal T reply.1 (c.json T reply.1 T.zero).1
              (c.json T reply.1 T.zero).2]⟩)) :
    (out.1.2 ≠ none → out.1.1 = E)
    ∧ (∀ T1 body v e, Event.unmarshal T1 body v (some e) ∈ out.2.trace.drop t.length →
        out.1 = (E, some e))
    ∧ (out.1.2 = none → ∃ call body T,
        out.2.trace.drop t.length = [Event.transport call body none,
              Event.unmarshal T body (c.json T body T.zero).1 none]
            ∧ out.1.1 = (c.json T body T.zero).1) := by
  subst hout
  obtain ⟨body, err⟩ := reply
  cases err with
  | some e0 => simp [drop_trace_one]
  | none =>
    cases hj : (c.json T body T.zero).2 with
    | some e1 =>
      simp only [drop_trace_two, hj]
      refine ⟨by simp, ?_, by simp⟩
      intro T1 b1 v e hm
      simp at hm
      simp [hm.2.2.2]
    | none =>
      simp only [drop_trace_two, hj]
      refine ⟨by simp, by simp, fun _ => ⟨call, body, T, ?_, rfl⟩⟩
      simp [hj]

/-- C4: result and error exclude each other.  Whenever the error an operation returns is
not nil, its result is the empty value of its result type; in particular when the decoder
fails, whatever it left in the target is not returned.  Whenever the error is nil, the
result is the body as a string for `PricesHistorical`, and for every other operation the
value the decoder left when run on the body the transport returned. -/
theorem result_and_error_exclusive (c : Client σ) (op : Operation) (w : World σ) :
    ((op.run c w).1.2 ≠ none → (op.run c w).1.1 = op.empty c)
    ∧ (∀ T body v e, Event.unmarshal T body v (some e) ∈ op.steps c w →
        (op.run c w).1 = (op.empty c, some e))
    ∧ ((op.run c w).1.2 = none →
        match op with
        | .PricesHistorical _ => ∃ call body,
            op.steps c w = [Event.transport call body none]
            ∧ (op.run c w).1.1 = GoValue.str body
        | _ => ∃ call body T,
            op.steps c w = [Event.transport call body none,
              Event.unmarshal T body (c.json T body T.zero).1 none]
            ∧ (op.run c w).1.1 = (c.json T body T.zero).1) := by
  cases op
  case PricesHistorical page =>
    obtain ⟨h1, h2, h3⟩ := PricesHistorical_steps c w page _ rfl
    refine ⟨?_, ?_, ?_⟩
    · intro h
      rw [h2] at h
      rw [h3, if_neg h]
      rfl
    · intro T body v e hm
      rw [h1] at hm
      simp at hm
    · intro h
      rw [h2] at h
      exact ⟨_, _, by rw [h1, h], by rw [h3, if_pos h]⟩
  all_goals
    exact decode_tail_exclusive c _ _ w.trace _ _ _ _ rfl

/-- A decode failure after the target was partly filled: on a body whose `total_count` is a
string, `json.Unmarshal` stores `num_pages` and `current_page`, leaves `TotalCount` at 0
and reports a type error; `Addresses` returns that error with a nil result. -/
theorem addresses_discards_partly_filled_response :
    pagination (jsonUnmarshal sampleParse AddressesResponse mistypedBody
        AddressesResponse.zero).1 = (some 0, some 2, some 1)
    ∧ (jsonUnmarshal sampleParse AddressesResponse mistypedBody AddressesResponse.zero).2
        = some (typeError "string")
    ∧ ((Operation.Addresses 0 0 "").run (sampleClient mistypedBody) emptyWorld).1
        = (GoValue.nil, some (typeError "string")) :=
  ⟨by decide, by decide, by rfl⟩

/-! ### Pagination fields -/

/-- C8 fails for `Contacts` and `Orders`: from a body with `total_count` 3, `num_pages` 2
and `current_page` 1, both decode without error and return 0 in all three pagination
fields, while `Addresses` and `Transfers` return 3, 2 and 1 from the same keys. -/
theorem contacts_orders_pagination_dropped :
    (Operation.Contacts.run (sampleClient contactsBody) emptyWorld).1.2 = none
    ∧ pagination (Operation.Contacts.run (sampleClient contactsBody) emptyWorld).1.1
        = (some 0, some 0, some 0)
    ∧ (Operation.Orders.run (sampleClient ordersBody) emptyWorld).1.2 = none
    ∧ pagination (Operation.Orders.run (sampleClient ordersBody) emptyWorld).1.1
        = (some 0, some 0, some 0)
    ∧ pagination ((Operation.Addresses 0 0 "").run (sampleClient addressesBody) emptyWorld).1.1
        = (some 3, some 2, some 1)
    ∧ pagination ((Operation.Transfers 0 0).run (sampleClient transfersBody) emptyWorld).1.1
        = (some 3, some 2, some 1) := by
  refine ⟨?_, ?_, ?_, ?_, ?_, ?_⟩ <;> decide

end Coinbase
